import Mathlib

/-!
Shallow embedding of the batch-download orchestrator in `src/app.py`
(a Streamlit + yt-dlp batch downloader).

The external pieces are modelled explicitly:
* the filesystem is a value: a directory is a `List FileEntry`, and
  file existence is a predicate `String → Bool`;
* the yt-dlp call inside `download_single_video` either returns video
  info and a predicted output filename, or raises — modelled by
  `FetchOutcome`;
* the order in which `concurrent.futures.as_completed` yields futures is
  nondeterministic — modelled by an explicit completion order, a
  permutation of the job indices;
* the `ThreadPoolExecutor(max_workers=W)` admission discipline is a
  small-step transition system on per-job states (`PoolStep`).

Everything else (candidate scan, latest-mtime selection, result record
construction, summary counts, zip packaging, file-browser filtering) is
translated directly from the Python source.
-/

/-- An entry of the download directory, as `Path.iterdir` exposes it:
its (base) name, its `st_mtime`, its `st_size`, and whether it is a
regular file. -/
structure FileEntry where
  name : String
  mtime : Nat
  size : Nat
  isFile : Bool
deriving DecidableEq, Repr

/-- Character-wise prefix test, the semantics of Python `str.startswith`
(first argument: the candidate prefix; second: the scanned list). -/
def beginsWith : List Char → List Char → Bool
  | [], _ => true
  | _ :: _, [] => false
  | a :: as, b :: bs => a == b && beginsWith as bs

/-- Python `s.startswith(pre)`. -/
def startswith (s pre : String) : Bool :=
  beginsWith pre.toList s.toList

/-- Python `str.lower`, character by character. -/
def strToLower (s : String) : String :=
  String.mk (s.toList.map Char.toLower)

/-- `os.path.basename` / `pathlib.PurePath.name`: the part after the last
path separator. -/
def basename (p : String) : String :=
  String.mk ((p.toList.reverse.takeWhile (fun c => !(c == '/'))).reverse)

/-- The stem/extension split of `pathlib`: the extension starts at the
last dot, provided that dot is neither the first nor the last character
of the name (so `.bashrc` and `file.` have no extension). Returns
(stem, extension-with-dot). -/
def splitName (name : String) : String × String :=
  let cs := name.toList
  match (List.range cs.length).filter (fun i => cs.getD i ' ' == '.') |>.getLast? with
  | some i =>
      if 0 < i ∧ i + 1 < cs.length then
        (String.mk (cs.take i), String.mk (cs.drop i))
      else (name, "")
  | none => (name, "")

/-- `pathlib.PurePath.stem` of a path: the final component without its
extension. -/
def stem (p : String) : String := (splitName (basename p)).1

/-- `pathlib.PurePath.suffix` of a path: the final component's extension,
with its dot, or `""` when there is none. -/
def suffix (p : String) : String := (splitName (basename p)).2

/-- The extension allow-list of `download_single_video` (line 104) and of
the file-browser blocks (lines 393 and 432). -/
def media_extensions : List String :=
  [".mp4", ".mp3", ".m4a", ".webm", ".mkv", ".wav", ".flac"]

/-- The candidate scan of `download_single_video` (lines 99–105): the
files of the download directory whose stem starts with the predicted
stem and whose lower-cased extension is in the allow-list. -/
def find_candidates (dir : List FileEntry) (expected_stem : String) : List FileEntry :=
  dir.filter (fun f =>
    startswith (stem f.name) expected_stem
      && media_extensions.contains (strToLower (suffix f.name)))

/-- Lines 109–110: `found_files.sort(key=mtime, reverse=True)` followed by
`found_files[0]`. Python's sort is stable, so the selected file is the
first, in directory order, of the files of greatest `st_mtime`. This
function returns exactly that element (`none` on the empty list). -/
def pickLatest : List FileEntry → Option FileEntry
  | [] => none
  | f :: fs =>
    match pickLatest fs with
    | none => some f
    | some g => if g.mtime > f.mtime then some g else some f

/-- The size report of line 112–113, at one decimal place. (The Python
source formats a float with `:.1f`; the model truncates the decimal
instead of rounding it — no claim depends on this text.) -/
def fmtMB (bytes : Nat) : String :=
  let t := bytes * 10 / (1024 * 1024)
  toString (t / 10) ++ "." ++ toString (t % 10)

/-- The dictionary `download_single_video` returns (lines 119–125 and
131–137): keys `url`, `title`, `status`, `message`, `file_path`. -/
structure DownloadResult where
  url : String
  title : String
  status : String
  message : String
  file_path : Option String
deriving DecidableEq, Repr

/-- What the yt-dlp calls inside the `try` block do for one job: either
they complete, yielding the extracted title and the predicted output
filename (`ydl.prepare_filename(info)`), or some call raises an
exception carrying a message. On the error side, `title_so_far` is the
title if `extract_info` had already succeeded before the raise, `none`
if the failure came first (the local `title` still holds its default). -/
inductive FetchOutcome where
  | ok (title : String) (predicted_filename : String)
  | err (title_so_far : Option String) (msg : String)
deriving DecidableEq, Repr

/-- `download_single_video(url, options, video_id, progress_tracker)`
(lines 70–137), with the yt-dlp interaction abstracted as a
`FetchOutcome` and the download directory passed as a value. On success
of the fetch, the candidate scan and latest-mtime selection decide
between a `success` result (with the resolved file) and a `warning`
result (no file found); any exception is caught and becomes an `error`
result whose message embeds the exception text verbatim. -/
def download_single_video (url : String) (video_id : Nat)
    (outcome : FetchOutcome) (dir : List FileEntry) : DownloadResult :=
  match outcome with
  | .err title_so_far e =>
      { url := url
        title := title_so_far.getD ("Video_" ++ toString video_id)
        status := "error"
        message := "❌ Error: " ++ e
        file_path := none }
  | .ok title predicted =>
      let expected_stem := stem predicted
      let found_files := find_candidates dir expected_stem
      match pickLatest found_files with
      | some f =>
          { url := url
            title := title
            status := "success"
            message := "✅ Downloaded successfully (" ++ fmtMB f.size ++ " MB)"
            file_path := some f.name }
      | none =>
          { url := url
            title := title
            status := "warning"
            message := "⚠️ Download completed but file not found on disk"
            file_path := none }

/-- One submitted job of the batch, as `run_downloads` (lines 349–366)
builds it: the i-th url with `video_id = i + 1`. The environment `env`
gives, per job index, the fetch outcome and the directory contents seen
by that job's candidate scan. -/
def worker (urls : List String) (env : Nat → FetchOutcome × List FileEntry)
    (i : Nat) : DownloadResult :=
  download_single_video (urls.getD i "") (i + 1) (env i).1 (env i).2

/-- `run_downloads` (lines 349–366): every url is submitted to the pool,
and the results list is built by appending `future.result()` in
`as_completed` order — an arbitrary permutation `order` of the job
indices `0, …, N-1`. -/
def run_downloads (urls : List String) (env : Nat → FetchOutcome × List FileEntry)
    (order : List Nat) : List DownloadResult :=
  order.map (worker urls env)

/-- Line 384: `sum(1 for r in results if r['status'] == 'success')`. -/
def completed_count (rs : List DownloadResult) : Nat :=
  rs.countP (fun r => r.status == "success")

/-- Line 385: `sum(1 for r in results if r['status'] == 'error')`. -/
def failed_count (rs : List DownloadResult) : Nat :=
  rs.countP (fun r => r.status == "error")

/-- The count the summary block does NOT compute: results whose status is
`warning`. Used to state what the two counts it does compute miss. -/
def warning_count (rs : List DownloadResult) : Nat :=
  rs.countP (fun r => r.status == "warning")

/-- The figures the summary block of lines 382–388 derives from the
results: the success count, the error count, and the total (displayed as
`{completed} successful, {failed} failed out of {len(results)} total`).
No warning count is computed there. -/
structure BatchSummary where
  completed : Nat
  failed : Nat
  total : Nat
deriving DecidableEq, Repr

/-- The summary computation of lines 383–385. -/
def summarize (rs : List DownloadResult) : BatchSummary :=
  { completed := completed_count rs
    failed := failed_count rs
    total := rs.length }

/-- The guard structure of lines 382–426: the batch-level
`All downloads failed` banner (line 426) is rendered exactly when the
results list is non-empty, no download is in flight, and
`completed > 0` is false. -/
def show_aggregate_failure (rs : List DownloadResult) (is_downloading : Bool) : Bool :=
  !rs.isEmpty && !is_downloading && (completed_count rs == 0)

/-- The file-browser filter of lines 431–432 (and 392–393): all entries
of the download directory that are regular files with an allow-listed
extension, regardless of the batch results. -/
def video_files (files : List FileEntry) : List FileEntry :=
  files.filter (fun f =>
    f.isFile && media_extensions.contains (strToLower (suffix f.name)))

/-- `create_download_button` (lines 139–153): re-checks existence at call
time and only then offers the file; returns whether a button was made. -/
def create_download_button (file_path : String) (onDisk : String → Bool) : Bool :=
  onDisk file_path

/-- `create_zip_download(files_list)` (lines 155–168): `None` when the
list is empty; otherwise an archive holding, under its base name, every
file of the list that exists on disk at call time (a present archive
with zero entries when none of them do). The archive is modelled as the
list of its entry names. -/
def create_zip_download (files_list : List String) (onDisk : String → Bool) :
    Option (List String) :=
  if files_list.isEmpty then none
  else some ((files_list.filter onDisk).map basename)

/-- Modelled from the spec: `listRetrievableFiles(results)` of §4.4 —
"filters to success/warning results with a resolvable file still present
on disk at call time". No function of `src/app.py` computes the
retrievable listing from the results (the browser blocks scan the
directory instead); this definition is the spec's side of that
comparison. -/
def spec_retrievable_files (rs : List DownloadResult) (onDisk : String → Bool) :
    List String :=
  rs.filterMap (fun r =>
    match r.file_path with
    | some p =>
        if (r.status == "success" || r.status == "warning") && onDisk p then some p
        else none
    | none => none)

/-- Per-job phase in the bounded pool: `queued` before a worker picks the
job up, `starting`/`downloading` while its fetch step executes (the
states the progress hook reports on lines 75 and 86), `finished` once
its terminal result exists. -/
inductive JState where
  | queued
  | starting
  | downloading
  | finished
deriving DecidableEq, Repr

/-- A job counts against the worker cap while its fetch step executes. -/
def JState.isActive : JState → Bool
  | .starting => true
  | .downloading => true
  | _ => false

/-- How many jobs currently execute their fetch step. -/
def activeCount (s : List JState) : Nat :=
  s.countP JState.isActive

/-- The admission discipline of `ThreadPoolExecutor(max_workers=W)`
(line 351 instantiates `W = 3`): a queued job may start only when fewer
than `W` jobs are active; an active job may advance from `starting` to
`downloading` or retire to `finished` at any time. -/
inductive PoolStep (W : Nat) : List JState → List JState → Prop where
  | start (s : List JState) (i : Nat) :
      s.get? i = some .queued → activeCount s < W →
      PoolStep W s (s.set i .starting)
  | download (s : List JState) (i : Nat) :
      s.get? i = some .starting →
      PoolStep W s (s.set i .downloading)
  | finish (s : List JState) (i : Nat) (a : JState) :
      s.get? i = some a → a.isActive = true →
      PoolStep W s (s.set i .finished)

/-- The pool states reachable from a fresh batch of `n` queued jobs. -/
def PoolReachable (W n : Nat) (s : List JState) : Prop :=
  Relation.ReflTransGen (PoolStep W) (List.replicate n .queued) s

/-! ## Helper lemmas -/

theorem pickLatest_eq_none {l : List FileEntry} : pickLatest l = none ↔ l = [] := by
  cases l with
  | nil => simp [pickLatest]
  | cons f fs =>
    cases hx : pickLatest fs with
    | none => simp [pickLatest, hx]
    | some g =>
      simp only [pickLatest, hx]
      split <;> simp

theorem pickLatest_mem {l : List FileEntry} :
    ∀ {f : FileEntry}, pickLatest l = some f → f ∈ l := by
  induction l with
  | nil => intro f h; simp [pickLatest] at h
  | cons a fs ih =>
    intro f h
    cases hx : pickLatest fs with
    | none =>
      simp only [pickLatest, hx, Option.some_inj] at h
      subst h
      exact List.mem_cons_self a fs
    | some g =>
      simp only [pickLatest, hx] at h
      by_cases hm : g.mtime > a.mtime
      · rw [if_pos hm, Option.some_inj] at h
        subst h
        exact List.mem_cons_of_mem a (ih hx)
      · rw [if_neg hm, Option.some_inj] at h
        subst h
        exact List.mem_cons_self a fs

theorem pickLatest_max {l : List FileEntry} :
    ∀ {f : FileEntry}, pickLatest l = some f → ∀ g ∈ l, g.mtime ≤ f.mtime := by
  induction l with
  | nil => intro f h; simp [pickLatest] at h
  | cons a fs ih =>
    intro f h g hg
    cases hx : pickLatest fs with
    | none =>
      have hfs : fs = [] := pickLatest_eq_none.mp hx
      subst hfs
      simp only [pickLatest, Option.some_inj] at h
      subst h
      rw [List.mem_singleton.mp hg]
    | some m =>
      simp only [pickLatest, hx] at h
      by_cases hm : m.mtime > a.mtime
      · rw [if_pos hm, Option.some_inj] at h
        subst h
        cases List.mem_cons.mp hg with
        | inl hga => rw [hga]; exact Nat.le_of_lt hm
        | inr hgf => exact ih hx g hgf
      · rw [if_neg hm, Option.some_inj] at h
        subst h
        cases List.mem_cons.mp hg with
        | inl hga => rw [hga]
        | inr hgf => exact Nat.le_trans (ih hx g hgf) (Nat.le_of_not_lt hm)

theorem counts_partition_aux (rs : List DownloadResult)
    (h : ∀ r ∈ rs, r.status = "success" ∨ r.status = "warning" ∨ r.status = "error") :
    completed_count rs + warning_count rs + failed_count rs = rs.length := by
  induction rs with
  | nil => rfl
  | cons r t ih =>
    have hr := h r (List.mem_cons_self r t)
    have ht := ih (fun x hx => h x (List.mem_cons_of_mem r hx))
    simp only [completed_count, warning_count, failed_count, List.countP_cons,
      List.length_cons] at *
    rcases hr with hs | hs | hs <;> rw [hs] <;> simp <;> omega

theorem activeCount_set (s : List JState) (i : Nat) (a b : JState)
    (h : s.get? i = some a) :
    activeCount (s.set i b) =
      activeCount s - (if a.isActive then 1 else 0) + (if b.isActive then 1 else 0) := by
  rw [List.get?_eq_getElem?] at h
  obtain ⟨hlt, hval⟩ := List.getElem?_eq_some_iff.mp h
  unfold activeCount
  rw [List.countP_set _ _ _ _ hlt, hval]

theorem activeCount_pos_of (s : List JState) (i : Nat) (a : JState)
    (h : s.get? i = some a) (ha : a.isActive = true) : 1 ≤ activeCount s := by
  rw [List.get?_eq_getElem?] at h
  obtain ⟨hlt, hval⟩ := List.getElem?_eq_some_iff.mp h
  have := List.boole_getElem_le_countP JState.isActive s i hlt
  rw [hval, ha] at this
  simpa [activeCount] using this

/-! ## Claim theorems -/

/-- C2: when the fetch step raises, `download_single_video` returns an
`error` result whose message carries the exception text verbatim (after
the fixed `❌ Error: ` tag) and no file path; the exception is absorbed
into an ordinary return value (the function is total on `FetchOutcome`),
and the spec's retrievable set built from that result is empty. -/
theorem fetch_error_contained (url : String) (video_id : Nat)
    (title_so_far : Option String) (e : String) (dir : List FileEntry)
    (onDisk : String → Bool) :
    (download_single_video url video_id (.err title_so_far e) dir).status = "error"
    ∧ (download_single_video url video_id (.err title_so_far e) dir).message =
        "❌ Error: " ++ e
    ∧ (download_single_video url video_id (.err title_so_far e) dir).file_path = none
    ∧ spec_retrievable_files
        [download_single_video url video_id (.err title_so_far e) dir] onDisk = [] :=
  ⟨rfl, rfl, rfl, rfl⟩

/-- C3: when the fetch step succeeds and the candidate scan is non-empty,
the job resolves to `success` on the selected file; the candidate set is
exactly the directory entries whose stem starts with the predicted stem
and whose lower-cased extension is allow-listed, and the selected file
is a candidate of greatest modification time. The witness instantiates
the spec's scenario: predicted `My Video.mp4`, only `My Video.mp3` on
disk, resolving to the `.mp3` with status `success` (not `warning`). -/
theorem resolution_selects_latest_matching
    (url : String) (video_id : Nat) (title predicted : String)
    (dir : List FileEntry) (f : FileEntry)
    (h : pickLatest (find_candidates dir (stem predicted)) = some f) :
    (download_single_video url video_id (.ok title predicted) dir).status = "success"
    ∧ (download_single_video url video_id (.ok title predicted) dir).file_path = some f.name
    ∧ (∀ g, g ∈ find_candidates dir (stem predicted) ↔
        g ∈ dir ∧ startswith (stem g.name) (stem predicted) = true
          ∧ media_extensions.contains (strToLower (suffix g.name)) = true)
    ∧ f ∈ find_candidates dir (stem predicted)
    ∧ (∀ g ∈ find_candidates dir (stem predicted), g.mtime ≤ f.mtime) := by
  refine ⟨?_, ?_, ?_, pickLatest_mem h, pickLatest_max h⟩
  · simp only [download_single_video, h]
  · simp only [download_single_video, h]
  · intro g
    simp [find_candidates, List.mem_filter, Bool.and_eq_true, and_assoc]

/-- Witness for C3, the spec's scenario: predicted stem `My Video` with
predicted extension `.mp4`, and only `My Video.mp3` on disk. -/
theorem resolution_scenario_witness :
    (download_single_video "u" 1
        (.ok "My Video" "/tmp/youtube_downloads/My Video.mp4")
        [⟨"My Video.mp3", 10, 100, true⟩]).status = "success"
    ∧ (download_single_video "u" 1
        (.ok "My Video" "/tmp/youtube_downloads/My Video.mp4")
        [⟨"My Video.mp3", 10, 100, true⟩]).file_path = some "My Video.mp3" :=
  ⟨(resolution_selects_latest_matching "u" 1 "My Video"
      "/tmp/youtube_downloads/My Video.mp4" [⟨"My Video.mp3", 10, 100, true⟩]
      ⟨"My Video.mp3", 10, 100, true⟩ (by decide)).1,
   (resolution_selects_latest_matching "u" 1 "My Video"
      "/tmp/youtube_downloads/My Video.mp4" [⟨"My Video.mp3", 10, 100, true⟩]
      ⟨"My Video.mp3", 10, 100, true⟩ (by decide)).2.1⟩

/-- C4: when the fetch step succeeds but the candidate scan finds no
file, the result is `warning` — neither `success` nor `error` — with the
explanatory message of line 115 and no file path. -/
theorem no_candidates_yields_warning
    (url : String) (video_id : Nat) (title predicted : String) (dir : List FileEntry)
    (h : find_candidates dir (stem predicted) = []) :
    (download_single_video url video_id (.ok title predicted) dir).status = "warning"
    ∧ (download_single_video url video_id (.ok title predicted) dir).status ≠ "success"
    ∧ (download_single_video url video_id (.ok title predicted) dir).status ≠ "error"
    ∧ (download_single_video url video_id (.ok title predicted) dir).message =
        "⚠️ Download completed but file not found on disk"
    ∧ (download_single_video url video_id (.ok title predicted) dir).file_path = none := by
  have hp : pickLatest (find_candidates dir (stem predicted)) = none := by
    rw [h]
    rfl
  have hres : download_single_video url video_id (.ok title predicted) dir =
      { url := url
        title := title
        status := "warning"
        message := "⚠️ Download completed but file not found on disk"
        file_path := none } := by
    simp only [download_single_video, hp]
  rw [hres]
  refine ⟨rfl, ?_, ?_, rfl, rfl⟩
  · show ("warning" : String) ≠ "success"
    decide
  · show ("warning" : String) ≠ "error"
    decide

/-- Witness for C4: an empty download directory. -/
theorem no_candidates_witness :
    (download_single_video "u" 1 (.ok "T" "/tmp/youtube_downloads/T.mp4") []).status
      = "warning"
    ∧ (download_single_video "u" 1 (.ok "T" "/tmp/youtube_downloads/T.mp4") []).file_path
      = none :=
  ⟨(no_candidates_yields_warning "u" 1 "T" "/tmp/youtube_downloads/T.mp4" [] rfl).1,
   (no_candidates_yields_warning "u" 1 "T" "/tmp/youtube_downloads/T.mp4" [] rfl).2.2.2.2⟩

/-- C10: every result of `download_single_video` carries the five fields
of `DownloadResult` (by its type), a status drawn from
`success`/`warning`/`error`, and a file path that is present exactly
when the status is `success`. -/
theorem download_result_shape (url : String) (video_id : Nat)
    (outcome : FetchOutcome) (dir : List FileEntry) :
    ((download_single_video url video_id outcome dir).status = "success"
      ∨ (download_single_video url video_id outcome dir).status = "warning"
      ∨ (download_single_video url video_id outcome dir).status = "error")
    ∧ ((download_single_video url video_id outcome dir).file_path ≠ none ↔
        (download_single_video url video_id outcome dir).status = "success") := by
  cases outcome with
  | err t e =>
    refine ⟨Or.inr (Or.inr rfl), ?_⟩
    show (none : Option String) ≠ none ↔ ("error" : String) = "success"
    decide
  | ok title predicted =>
    cases hp : pickLatest (find_candidates dir (stem predicted)) with
    | none =>
      have hres : download_single_video url video_id (.ok title predicted) dir =
          { url := url
            title := title
            status := "warning"
            message := "⚠️ Download completed but file not found on disk"
            file_path := none } := by
        simp only [download_single_video, hp]
      rw [hres]
      refine ⟨Or.inr (Or.inl rfl), ?_⟩
      show (none : Option String) ≠ none ↔ ("warning" : String) = "success"
      decide
    | some f =>
      have hres : download_single_video url video_id (.ok title predicted) dir =
          { url := url
            title := title
            status := "success"
            message := "✅ Downloaded successfully (" ++ fmtMB f.size ++ " MB)"
            file_path := some f.name } := by
        simp only [download_single_video, hp]
      rw [hres]
      refine ⟨Or.inl rfl, ?_⟩
      show some f.name ≠ none ↔ ("success" : String) = "success"
      simp

/-- C1: for any batch, any per-job fetch outcomes (including raising
ones), and any completion order that is a permutation of the submitted
job indices, `run_downloads` yields exactly one result per submitted
job: N results in total, and, as a multiset, exactly the per-job worker
results — nothing dropped, nothing duplicated. -/
theorem run_downloads_complete (urls : List String)
    (env : Nat → FetchOutcome × List FileEntry) (order : List Nat)
    (h : order.Perm (List.range urls.length)) :
    (run_downloads urls env order).length = urls.length
    ∧ (run_downloads urls env order).Perm
        ((List.range urls.length).map (worker urls env)) := by
  constructor
  · rw [run_downloads, List.length_map, h.length_eq, List.length_range]
  · exact h.map (worker urls env)

/-- The fetch outcomes of the C1 witness batch: job 0's fetch raises,
job 1's fetch succeeds and leaves `T.mp4` on disk. -/
def sample_env : Nat → FetchOutcome × List FileEntry :=
  fun i =>
    if i == 0 then (.err none "boom", [])
    else (.ok "T" "T.mp4", [⟨"T.mp4", 3, 7, true⟩])

/-- Witness for C1: a two-job batch, one job erroring, collected in the
order job 1 then job 0. -/
theorem run_downloads_complete_witness :
    (run_downloads ["a", "b"] sample_env [1, 0]).length = 2
    ∧ (run_downloads ["a", "b"] sample_env [1, 0]).Perm
        ((List.range 2).map (worker ["a", "b"] sample_env)) :=
  run_downloads_complete ["a", "b"] sample_env [1, 0] (by decide)

/-- A result whose terminal state is `warning` (as `download_single_video`
produces one when the fetch succeeds but no candidate file is found). -/
def warning_result : DownloadResult :=
  ⟨"u", "t", "warning", "m", none⟩

/-- A three-result batch with one result of each terminal state. -/
def mixed_batch : List DownloadResult :=
  [⟨"a", "t1", "success", "m1", some "f.mp4"⟩,
   ⟨"b", "t2", "warning", "m2", none⟩,
   ⟨"c", "t3", "error", "m3", none⟩]

/-- C5 counterexample: a batch whose single job ended in `warning`. The
summary block computes only a success count and an error count (no
warning count), and the two counts it does compute sum to 0 while the
total is 1 — so it does not count the results by all three terminal
states summing to the total. -/
theorem summary_drops_warnings_counterexample :
    summarize [warning_result] = ⟨0, 0, 1⟩
    ∧ (summarize [warning_result]).completed + (summarize [warning_result]).failed
      ≠ (summarize [warning_result]).total := by
  decide

/-- C5 amended: the summary is a pure function of the results; it counts
the `success` results and the `error` results against the total, with no
separate warning count, and what the two reported counts miss is exactly
the `warning` results: success + warning + error = total. -/
theorem summary_counts (rs : List DownloadResult)
    (h : ∀ r ∈ rs, r.status = "success" ∨ r.status = "warning" ∨ r.status = "error") :
    (summarize rs).completed = completed_count rs
    ∧ (summarize rs).failed = failed_count rs
    ∧ (summarize rs).total = rs.length
    ∧ (summarize rs).completed + warning_count rs + (summarize rs).failed
        = (summarize rs).total :=
  ⟨rfl, rfl, rfl, counts_partition_aux rs h⟩

/-- Witness for C5 (amended): a batch with one result of each terminal
state. -/
theorem summary_counts_witness :
    (summarize mixed_batch).completed + warning_count mixed_batch
        + (summarize mixed_batch).failed
      = (summarize mixed_batch).total :=
  (summary_counts mixed_batch (by decide)).2.2.2

/-- C6 counterexample: a batch whose single result is a `warning` (no
success, no error) is reported with the batch-level aggregate-failure
banner, although not every job in it ended in `error`. -/
theorem aggregate_failure_counterexample :
    show_aggregate_failure [warning_result] false = true
    ∧ ¬ (∀ r ∈ [warning_result], r.status = "error") := by
  decide

/-- C6 amended: the aggregate-failure banner is surfaced exactly when the
batch is non-empty, no download is in flight, and no job in the batch
ended in `success` — warnings count as failures for this banner, errors
are not required. -/
theorem aggregate_failure_iff_no_success (rs : List DownloadResult) (d : Bool) :
    show_aggregate_failure rs d = true ↔
      rs ≠ [] ∧ d = false ∧ ∀ r ∈ rs, r.status ≠ "success" := by
  unfold show_aggregate_failure completed_count
  simp [Bool.and_eq_true, List.countP_eq_zero, and_assoc]

/-- C7 counterexample: with no batch results at all (so the spec's
result-recorded retrievable set is empty), a stale media file left in
the shared download directory still appears in the listing: the listing
is rebuilt from the directory contents, not from the results. -/
theorem listing_not_result_based_counterexample :
    (video_files [⟨"old.mp4", 0, 5, true⟩]).map FileEntry.name = ["old.mp4"]
    ∧ spec_retrievable_files [] (fun _ => true) = []
    ∧ (video_files [⟨"old.mp4", 0, 5, true⟩]).map FileEntry.name ≠
        spec_retrievable_files [] (fun _ => true) := by
  refine ⟨by decide, rfl, by decide⟩

/-- C7 amended: the retrievable-files listing is recomputed from the
download directory at each call and contains exactly the entries that
are regular files with an allow-listed media extension — independently
of which results recorded them; an entry deleted from the directory is
therefore omitted on the next call. -/
theorem browser_lists_directory_media (files : List FileEntry) (f : FileEntry) :
    f ∈ video_files files ↔
      f ∈ files ∧ f.isFile = true
        ∧ media_extensions.contains (strToLower (suffix f.name)) = true := by
  simp [video_files, List.mem_filter, Bool.and_eq_true, and_assoc]

/-- C8: `create_zip_download` returns an absent archive exactly when the
candidate list is empty, and otherwise an archive whose entries are
exactly the listed files that exist on disk at call time, each under its
base name. -/
theorem create_zip_download_spec (files_list : List String) (onDisk : String → Bool) :
    (create_zip_download files_list onDisk = none ↔ files_list = [])
    ∧ (∀ entries, create_zip_download files_list onDisk = some entries →
        entries = (files_list.filter onDisk).map basename) := by
  unfold create_zip_download
  constructor
  · constructor
    · intro h
      by_cases he : files_list.isEmpty
      · exact List.isEmpty_iff.mp he
      · rw [if_neg he] at h
        cases h
    · intro h
      subst h
      rfl
  · intro entries h
    by_cases he : files_list.isEmpty
    · rw [if_pos he] at h
      cases h
    · rw [if_neg he] at h
      exact (Option.some_inj.mp h).symm

/-- Witness for C8: the empty list yields no archive; a two-file list of
which only one still exists yields the one base name. -/
theorem create_zip_download_witness :
    create_zip_download [] (fun _ => true) = none
    ∧ ["x.mp4"] =
        ((["a/x.mp4", "gone.mp3"].filter (fun p => p == "a/x.mp4")).map basename) :=
  ⟨(create_zip_download_spec [] (fun _ => true)).1.mpr rfl,
   (create_zip_download_spec ["a/x.mp4", "gone.mp3"] (fun p => p == "a/x.mp4")).2
      ["x.mp4"] (by decide)⟩

/-- C9: in every pool state reachable from a fresh batch of `n` queued
jobs under worker cap `W`, at most `W` jobs are executing their fetch
step (`starting` or `downloading`) simultaneously. The source fixes
`W = 3` via `ThreadPoolExecutor(max_workers=3)`. -/
theorem pool_respects_worker_cap (W n : Nat) (s : List JState)
    (h : PoolReachable W n s) : activeCount s ≤ W := by
  unfold PoolReachable at h
  induction h with
  | refl =>
    have h0 : activeCount (List.replicate n JState.queued) = 0 := by
      unfold activeCount
      rw [List.countP_eq_zero]
      intro a ha
      rw [List.eq_of_mem_replicate ha]
      simp [JState.isActive]
    omega
  | tail hr step ih =>
    cases step with
    | start i hq hlt =>
      rw [activeCount_set _ i _ _ hq]
      simp [JState.isActive]
      omega
    | download i hs =>
      have hpos := activeCount_pos_of _ i _ hs rfl
      rw [activeCount_set _ i _ _ hs]
      simp [JState.isActive]
      omega
    | finish i a hs hact =>
      rw [activeCount_set _ i a _ hs, hact]
      simp [JState.isActive]
      omega

/-- Witness for C9: with cap 2 over 3 jobs, the state reached after one
admission respects the cap. -/
theorem pool_cap_witness :
    activeCount [JState.starting, JState.queued, JState.queued] ≤ 2 := by
  have hstep : PoolStep 2 (List.replicate 3 JState.queued)
      [JState.starting, JState.queued, JState.queued] :=
    PoolStep.start (List.replicate 3 JState.queued) 0 (by decide) (by decide)
  exact pool_respects_worker_cap 2 3 _ (Relation.ReflTransGen.single hstep)
